import Mathlib

/-!
Shallow embedding of `src/src/submission/tools/chart.py` (`generate_chart`).

The Python function parses a JSON payload into a DataFrame, sets the global
seaborn theme and matplotlib font size, dispatches on `chart_type` to one of
nine seaborn/matplotlib plotting calls, applies shared cosmetic options,
saves the figure to a buffer and uploads it to a fixed S3 bucket, returning
the S3 URL on success or an error string when the upload raises.

The embedding models the run of one invocation as a trace of library calls
(`Effect`) paired with the Python-level outcome: `Except PyError String`
(`.error e` models an exception propagating to the caller, `.ok s` models a
normal string return).  The two library interactions whose outcome is not
determined by the repository's code — `json.loads`/`pd.DataFrame`
construction and `s3.upload_fileobj` — are parameters of the embedding
(`parse`, `uploadResult`), so theorems quantify over all their behaviours.
-/

namespace Chart

/-- A scalar cell of the tabular payload (JSON values are strings or
numbers here; the distinction is irrelevant to the control flow). -/
inductive Value where
  | str : String → Value
  | int : Int → Value
deriving Repr, DecidableEq

/-- A pandas DataFrame, modelled as its named columns (JSON object keys are
strings, so every column name is a string). -/
structure DataFrame where
  cols : List (String × List Value)
deriving Repr, DecidableEq

/-- `df[k]` column lookup.  Python's `df[None]` (a lookup with key `None`)
always raises `KeyError` for a JSON-derived frame, since no column is named
`None`; a `some`-key lookup succeeds iff the column exists. -/
def DataFrame.col? (df : DataFrame) (k : Option String) : Option (List Value) :=
  match k with
  | none => none
  | some s => (df.cols.find? (fun p => p.1 = s)).map (fun p => p.2)

/-- Python exceptions that the embedded code can raise. -/
inductive PyError where
  | valueError (msg : String)
  | keyError (key : Option String)
  | jsonDecodeError (msg : String)
deriving Repr, DecidableEq

/-- The merged configuration record (the Python `config` dict after
`{**default_config, **config}`), with the types documented in the
docstring of `generate_chart`. -/
structure Config where
  title : Option String
  figsize : Nat × Nat
  palette : String
  hue : Option String
  style : Option String
  orientation : String
  bins : Nat
  aggregate : String
  error_bars : Bool
  legend : Bool
  grid : Bool
  rotate_labels : Int
  font_size : Nat
  theme : String
deriving Repr, DecidableEq

/-- The `default_config` dict of `generate_chart` (chart.py lines 61-76). -/
def default_config : Config :=
  { title := none
    figsize := (10, 6)
    palette := "deep"
    hue := none
    style := none
    orientation := "v"
    bins := 30
    aggregate := "mean"
    error_bars := false
    legend := true
    grid := true
    rotate_labels := 0
    font_size := 10
    theme := "darkgrid" }

/-- The caller-supplied `config` dict: each documented key is present
(`some v`, possibly `some none` for an explicit `None` value) or absent
(`none`). -/
structure PartialConfig where
  title : Option (Option String) := none
  figsize : Option (Nat × Nat) := none
  palette : Option String := none
  hue : Option (Option String) := none
  style : Option (Option String) := none
  orientation : Option String := none
  bins : Option Nat := none
  aggregate : Option String := none
  error_bars : Option Bool := none
  legend : Option Bool := none
  grid : Option Bool := none
  rotate_labels : Option Int := none
  font_size : Option Nat := none
  theme : Option String := none
deriving Repr, DecidableEq

/-- `config = {} if config is None`, then `config = {**default_config, **config}`
(chart.py lines 79-81): every key the caller supplies overrides the default,
every absent key keeps its default. -/
def mergeConfig (config : Option PartialConfig) : Config :=
  let pc := config.getD {}
  { title := pc.title.getD default_config.title
    figsize := pc.figsize.getD default_config.figsize
    palette := pc.palette.getD default_config.palette
    hue := pc.hue.getD default_config.hue
    style := pc.style.getD default_config.style
    orientation := pc.orientation.getD default_config.orientation
    bins := pc.bins.getD default_config.bins
    aggregate := pc.aggregate.getD default_config.aggregate
    error_bars := pc.error_bars.getD default_config.error_bars
    legend := pc.legend.getD default_config.legend
    grid := pc.grid.getD default_config.grid
    rotate_labels := pc.rotate_labels.getD default_config.rotate_labels
    font_size := pc.font_size.getD default_config.font_size
    theme := pc.theme.getD default_config.theme }

/-- Python truthiness of an optional string: `None` and `''` are falsy. -/
def pyTruthyStr (s : Option String) : Bool :=
  match s with
  | none => false
  | some s => s ≠ ""

/-- Python `str.capitalize()`: first character uppercased, the rest
lowercased. -/
def pyCapitalize (s : String) : String :=
  match s.data with
  | [] => ""
  | c :: cs => String.mk (c.toUpper :: cs.map Char.toLower)

/-- One observable library call made by `generate_chart`, with the
arguments the Python code passes that depend on the inputs. -/
inductive Effect where
  | set_theme (style : String)
  | set_font_size (n : Nat)
  | subplots (figsize : Nat × Nat)
  | scatterplot (x : String) (y : Option String) (hue : Option String)
      (style : Option String) (palette : String)
  | lineplot (x : String) (y : Option String) (hue : Option String)
      (style : Option String) (palette : String) (errorbar : Option String)
  | barplot (x : String) (y : Option String) (hue : Option String)
      (palette : String) (errorbar : Option String) (estimator : String)
  | boxplot (x : String) (y : Option String) (hue : Option String) (palette : String)
  | violinplot (x : String) (y : Option String) (hue : Option String) (palette : String)
  | heatmap (values : Option String) (index : String) (columns : Option String)
      (aggfunc : String) (cmap : String)
  | pie (sizes : List Value) (labels : List Value) (palette : String)
  | histplot (x : String) (hue : Option String) (bins : Nat) (palette : String)
  | kdeplot (x : String) (hue : Option String) (palette : String)
  | set_title (t : String)
  | set_xlabel (l : String)
  | set_ylabel (l : String)
  | xticks_rotation (deg : Int)
  | set_grid (b : Bool)
  | remove_legend
  | tight_layout
  | savefig
  | close_figure
  | upload_fileobj (bucket : String) (filename : String)
deriving Repr, DecidableEq

/-- The dispatch on `chart_type` (chart.py lines 95-194): returns the one
plotting call made, or the exception the branch raises (`KeyError` from the
pie branch's column lookups, `ValueError` from the final `else`). -/
def plotStep (chart_type : String) (df : DataFrame) (x_axis : String)
    (y_axis : Option String) (cfg : Config) : Except PyError Effect :=
  if chart_type = "scatter" then
    .ok (.scatterplot x_axis y_axis cfg.hue cfg.style cfg.palette)
  else if chart_type = "line" then
    .ok (.lineplot x_axis y_axis cfg.hue cfg.style cfg.palette
      (if cfg.error_bars then some "sd" else none))
  else if chart_type = "bar" then
    .ok (.barplot x_axis y_axis cfg.hue cfg.palette
      (if cfg.error_bars then some "sd" else none) cfg.aggregate)
  else if chart_type = "box" then
    .ok (.boxplot x_axis y_axis cfg.hue cfg.palette)
  else if chart_type = "violin" then
    .ok (.violinplot x_axis y_axis cfg.hue cfg.palette)
  else if chart_type = "heatmap" then
    .ok (.heatmap y_axis x_axis (if pyTruthyStr cfg.hue then cfg.hue else none)
      cfg.aggregate cfg.palette)
  else if chart_type = "pie" then
    match df.col? y_axis with
    | none => .error (.keyError y_axis)
    | some sizes =>
      match df.col? (some x_axis) with
      | none => .error (.keyError (some x_axis))
      | some labels => .ok (.pie sizes labels cfg.palette)
  else if chart_type = "histogram" then
    .ok (.histplot x_axis cfg.hue cfg.bins cfg.palette)
  else if chart_type = "kde" then
    .ok (.kdeplot x_axis cfg.hue cfg.palette)
  else
    .error (.valueError ("Unsupported chart type: " ++ chart_type))

/-- The default chart title
`f"{chart_type.capitalize()} Chart: {y_axis if y_axis else ''} vs {x_axis}"`
(chart.py line 200). -/
def defaultTitle (chart_type : String) (x_axis : String) (y_axis : Option String) : String :=
  pyCapitalize chart_type ++ " Chart: " ++ y_axis.getD "" ++ " vs " ++ x_axis

/-- The post-plot customization block (chart.py lines 196-223): title,
axis labels, optional tick rotation, grid, optional legend removal, layout,
save, close. -/
def cosmeticEffects (chart_type : String) (x_axis : String) (y_axis : Option String)
    (cfg : Config) : List Effect :=
  [Effect.set_title
      (if pyTruthyStr cfg.title then cfg.title.getD "" else defaultTitle chart_type x_axis y_axis),
   Effect.set_xlabel x_axis]
  ++ (if pyTruthyStr y_axis then [Effect.set_ylabel (y_axis.getD "")] else [])
  ++ (if cfg.rotate_labels ≠ 0 then [Effect.xticks_rotation cfg.rotate_labels] else [])
  ++ [Effect.set_grid cfg.grid]
  ++ (if cfg.legend then [] else [Effect.remove_legend])
  ++ [Effect.tight_layout, Effect.savefig, Effect.close_figure]

/-- The fixed S3 bucket (chart.py line 231). -/
def bucket_name : String := "gdsc-bucket-891377155936"

/-- `generate_chart` (chart.py lines 14-239), parameterized over the outcome
of JSON parsing (`parse`, modelling `json.loads` + `pd.DataFrame`) and of the
S3 upload (`uploadResult`: `.ok ()` when `upload_fileobj` succeeds, `.error
msg` when it raises an exception whose `str` is `msg`).  The result is the
trace of library calls performed before returning or raising, paired with the
outcome: `.error e` models the exception `e` propagating to the caller. -/
def generate_chart (parse : String → Except PyError DataFrame)
    (uploadResult : Except String Unit)
    (chart_type : String) (data_json : String) (filename : String)
    (x_axis : String) (y_axis : Option String := none)
    (config : Option PartialConfig := none) :
    List Effect × Except PyError String :=
  let cfg := mergeConfig config
  match parse data_json with
  | .error e => ([], .error e)
  | .ok df =>
    let pre : List Effect :=
      [.set_theme cfg.theme, .set_font_size cfg.font_size, .subplots cfg.figsize]
    match plotStep chart_type df x_axis y_axis cfg with
    | .error e => (pre, .error e)
    | .ok plotE =>
      let trace := pre ++ plotE :: cosmeticEffects chart_type x_axis y_axis cfg
        ++ [.upload_fileobj bucket_name filename]
      match uploadResult with
      | .ok _ =>
        (trace, .ok ("https://" ++ bucket_name ++ ".s3.amazonaws.com/" ++ filename))
      | .error msg =>
        (trace, .ok ("An error occurred: " ++ msg))

end Chart

namespace Chart

/-- Whether an effect is one of the nine chart-drawing library calls. -/
def Effect.isPlotCall : Effect → Bool
  | .scatterplot .. => true
  | .lineplot .. => true
  | .barplot .. => true
  | .boxplot .. => true
  | .violinplot .. => true
  | .heatmap .. => true
  | .pie .. => true
  | .histplot .. => true
  | .kdeplot .. => true
  | _ => false

/-- The customization block performs no chart-drawing call. -/
theorem cosmeticEffects_filter_isPlotCall (ct x : String) (y : Option String) (cfg : Config) :
    (cosmeticEffects ct x y cfg).filter Effect.isPlotCall = [] := by
  unfold cosmeticEffects
  split_ifs <;> rfl

/-- Closed form of a successful run: if parsing and the plot dispatch
succeed, the trace is the theme/figure prelude, the plot call, the
customization block and the upload, and the returned string is decided by
the upload outcome. -/
theorem generate_chart_eq_of_parse_ok
    (parse : String → Except PyError DataFrame) (up : Except String Unit)
    (ct dj fn x : String) (y : Option String) (c : Option PartialConfig)
    (df : DataFrame) (pe : Effect)
    (hdf : parse dj = .ok df)
    (hpe : plotStep ct df x y (mergeConfig c) = .ok pe) :
    generate_chart parse up ct dj fn x y c =
      ([Effect.set_theme (mergeConfig c).theme,
        Effect.set_font_size (mergeConfig c).font_size,
        Effect.subplots (mergeConfig c).figsize]
        ++ pe :: cosmeticEffects ct x y (mergeConfig c)
        ++ [Effect.upload_fileobj bucket_name fn],
       .ok (match up with
            | .ok _ => "https://" ++ bucket_name ++ ".s3.amazonaws.com/" ++ fn
            | .error msg => "An error occurred: " ++ msg)) := by
  unfold generate_chart
  simp only [hdf, hpe]
  cases up <;> rfl

/-- A full trace keeps exactly its one plot call under `isPlotCall`. -/
theorem trace_filter_isPlotCall (t : String) (n : Nat) (s : Nat × Nat) (pe : Effect)
    (ct x : String) (y : Option String) (cfg : Config) (fn : String)
    (hpe : Effect.isPlotCall pe = true) :
    ([Effect.set_theme t, Effect.set_font_size n, Effect.subplots s]
      ++ pe :: cosmeticEffects ct x y cfg
      ++ [Effect.upload_fileobj bucket_name fn]).filter Effect.isPlotCall = [pe] := by
  have h1 : Effect.isPlotCall (.set_theme t) = false := rfl
  have h2 : Effect.isPlotCall (.set_font_size n) = false := rfl
  have h3 : Effect.isPlotCall (.subplots s) = false := rfl
  have h4 : Effect.isPlotCall (.upload_fileobj bucket_name fn) = false := rfl
  simp [List.filter_append, List.filter_cons, hpe, h1, h2, h3, h4,
    cosmeticEffects_filter_isPlotCall]

end Chart

namespace Chart

/-- A parse oracle that always yields the same frame (models a payload
whose JSON decodes to `df`). -/
def constParse (df : DataFrame) : String → Except PyError DataFrame :=
  fun _ => .ok df

/-- A parse oracle that always raises (models an invalid JSON payload). -/
def failParse (msg : String) : String → Except PyError DataFrame :=
  fun _ => .error (.jsonDecodeError msg)

/-- C1: for each of the nine supported chart-type tags, `generate_chart`
performs exactly the one corresponding plotting call, passing it the
supplied `x_axis`/`y_axis` columns and the relevant merged options (hue,
style, palette, error_bars, aggregate, bins; for pie, the data of the
`y_axis` and `x_axis` columns). -/
theorem generate_chart_dispatch
    (parse : String → Except PyError DataFrame) (up : Except String Unit)
    (dj fn x : String) (y : Option String) (c : Option PartialConfig)
    (df : DataFrame) (sizes labels : List Value)
    (hdf : parse dj = .ok df)
    (hsz : df.col? y = some sizes)
    (hlb : df.col? (some x) = some labels) :
    (generate_chart parse up "scatter" dj fn x y c).1.filter Effect.isPlotCall
      = [.scatterplot x y (mergeConfig c).hue (mergeConfig c).style (mergeConfig c).palette]
    ∧ (generate_chart parse up "line" dj fn x y c).1.filter Effect.isPlotCall
      = [.lineplot x y (mergeConfig c).hue (mergeConfig c).style (mergeConfig c).palette
          (if (mergeConfig c).error_bars then some "sd" else none)]
    ∧ (generate_chart parse up "bar" dj fn x y c).1.filter Effect.isPlotCall
      = [.barplot x y (mergeConfig c).hue (mergeConfig c).palette
          (if (mergeConfig c).error_bars then some "sd" else none) (mergeConfig c).aggregate]
    ∧ (generate_chart parse up "box" dj fn x y c).1.filter Effect.isPlotCall
      = [.boxplot x y (mergeConfig c).hue (mergeConfig c).palette]
    ∧ (generate_chart parse up "violin" dj fn x y c).1.filter Effect.isPlotCall
      = [.violinplot x y (mergeConfig c).hue (mergeConfig c).palette]
    ∧ (generate_chart parse up "heatmap" dj fn x y c).1.filter Effect.isPlotCall
      = [.heatmap y x (if pyTruthyStr (mergeConfig c).hue then (mergeConfig c).hue else none)
          (mergeConfig c).aggregate (mergeConfig c).palette]
    ∧ (generate_chart parse up "pie" dj fn x y c).1.filter Effect.isPlotCall
      = [.pie sizes labels (mergeConfig c).palette]
    ∧ (generate_chart parse up "histogram" dj fn x y c).1.filter Effect.isPlotCall
      = [.histplot x (mergeConfig c).hue (mergeConfig c).bins (mergeConfig c).palette]
    ∧ (generate_chart parse up "kde" dj fn x y c).1.filter Effect.isPlotCall
      = [.kdeplot x (mergeConfig c).hue (mergeConfig c).palette] := by
  refine ⟨?_, ?_, ?_, ?_, ?_, ?_, ?_, ?_, ?_⟩
  · rw [generate_chart_eq_of_parse_ok parse up "scatter" dj fn x y c df _ hdf rfl]
    exact trace_filter_isPlotCall _ _ _ _ _ _ _ _ _ rfl
  · rw [generate_chart_eq_of_parse_ok parse up "line" dj fn x y c df _ hdf rfl]
    exact trace_filter_isPlotCall _ _ _ _ _ _ _ _ _ rfl
  · rw [generate_chart_eq_of_parse_ok parse up "bar" dj fn x y c df _ hdf rfl]
    exact trace_filter_isPlotCall _ _ _ _ _ _ _ _ _ rfl
  · rw [generate_chart_eq_of_parse_ok parse up "box" dj fn x y c df _ hdf rfl]
    exact trace_filter_isPlotCall _ _ _ _ _ _ _ _ _ rfl
  · rw [generate_chart_eq_of_parse_ok parse up "violin" dj fn x y c df _ hdf rfl]
    exact trace_filter_isPlotCall _ _ _ _ _ _ _ _ _ rfl
  · rw [generate_chart_eq_of_parse_ok parse up "heatmap" dj fn x y c df _ hdf rfl]
    exact trace_filter_isPlotCall _ _ _ _ _ _ _ _ _ rfl
  · have hps : plotStep "pie" df x y (mergeConfig c)
        = .ok (.pie sizes labels (mergeConfig c).palette) := by
      unfold plotStep
      rw [if_neg (by decide), if_neg (by decide), if_neg (by decide), if_neg (by decide),
        if_neg (by decide), if_neg (by decide), if_pos rfl, hsz, hlb]
    rw [generate_chart_eq_of_parse_ok parse up "pie" dj fn x y c df _ hdf hps]
    exact trace_filter_isPlotCall _ _ _ _ _ _ _ _ _ rfl
  · rw [generate_chart_eq_of_parse_ok parse up "histogram" dj fn x y c df _ hdf rfl]
    exact trace_filter_isPlotCall _ _ _ _ _ _ _ _ _ rfl
  · rw [generate_chart_eq_of_parse_ok parse up "kde" dj fn x y c df _ hdf rfl]
    exact trace_filter_isPlotCall _ _ _ _ _ _ _ _ _ rfl

end Chart

namespace Chart

/-- A two-column frame used to instantiate the theorems. -/
def df0 : DataFrame := ⟨[("x", [Value.int 1]), ("y", [Value.int 2])]⟩

/-- Witness for C1: the dispatch theorem applied to a concrete frame with
columns `x` and `y` and the default configuration. -/
theorem generate_chart_dispatch_witness :
    (generate_chart (constParse df0) (.ok ()) "scatter" "d" "f.png" "x" (some "y")
        none).1.filter Effect.isPlotCall
      = [.scatterplot "x" (some "y") none none "deep"]
    ∧ (generate_chart (constParse df0) (.ok ()) "line" "d" "f.png" "x" (some "y")
        none).1.filter Effect.isPlotCall
      = [.lineplot "x" (some "y") none none "deep" none]
    ∧ (generate_chart (constParse df0) (.ok ()) "bar" "d" "f.png" "x" (some "y")
        none).1.filter Effect.isPlotCall
      = [.barplot "x" (some "y") none "deep" none "mean"]
    ∧ (generate_chart (constParse df0) (.ok ()) "box" "d" "f.png" "x" (some "y")
        none).1.filter Effect.isPlotCall
      = [.boxplot "x" (some "y") none "deep"]
    ∧ (generate_chart (constParse df0) (.ok ()) "violin" "d" "f.png" "x" (some "y")
        none).1.filter Effect.isPlotCall
      = [.violinplot "x" (some "y") none "deep"]
    ∧ (generate_chart (constParse df0) (.ok ()) "heatmap" "d" "f.png" "x" (some "y")
        none).1.filter Effect.isPlotCall
      = [.heatmap (some "y") "x" none "mean" "deep"]
    ∧ (generate_chart (constParse df0) (.ok ()) "pie" "d" "f.png" "x" (some "y")
        none).1.filter Effect.isPlotCall
      = [.pie [Value.int 2] [Value.int 1] "deep"]
    ∧ (generate_chart (constParse df0) (.ok ()) "histogram" "d" "f.png" "x" (some "y")
        none).1.filter Effect.isPlotCall
      = [.histplot "x" none 30 "deep"]
    ∧ (generate_chart (constParse df0) (.ok ()) "kde" "d" "f.png" "x" (some "y")
        none).1.filter Effect.isPlotCall
      = [.kdeplot "x" none "deep"] :=
  generate_chart_dispatch (constParse df0) (.ok ()) "d" "f.png" "x" (some "y") none
    df0 [Value.int 2] [Value.int 1] rfl rfl rfl

/-- C2: whenever the call returns normally with the upload having
succeeded, the returned string is the URL of the caller-supplied filename
inside the fixed, hardcoded bucket `gdsc-bucket-891377155936`. -/
theorem generate_chart_success_url
    (parse : String → Except PyError DataFrame) (up : Except String Unit)
    (ct dj fn x : String) (y : Option String) (c : Option PartialConfig) (ret : String)
    (hup : up = .ok ())
    (hret : (generate_chart parse up ct dj fn x y c).2 = .ok ret) :
    ret = "https://gdsc-bucket-891377155936.s3.amazonaws.com/" ++ fn := by
  subst hup
  unfold generate_chart at hret
  cases hp : parse dj with
  | error e => simp only [hp] at hret; exact absurd hret (by simp)
  | ok df =>
    simp only [hp] at hret
    cases hps : plotStep ct df x y (mergeConfig c) with
    | error e => simp only [hps] at hret; exact absurd hret (by simp)
    | ok pe =>
      simp only [hps, Except.ok.injEq] at hret
      exact hret.symm

/-- Witness for C2 at a concrete successful run. -/
theorem generate_chart_success_url_witness :
    ("https://gdsc-bucket-891377155936.s3.amazonaws.com/f.png" : String)
      = "https://gdsc-bucket-891377155936.s3.amazonaws.com/" ++ "f.png" :=
  generate_chart_success_url (constParse df0) (.ok ()) "scatter" "d" "f.png" "x"
    (some "y") none _ rfl rfl

/-- C3: every exception raised by the S3 upload is caught, and the call
returns normally with the string `An error occurred: ` followed by the
exception's message — the same string type as the success outcome — instead
of propagating the exception. -/
theorem generate_chart_upload_error_string
    (parse : String → Except PyError DataFrame) (msg : String)
    (ct dj fn x : String) (y : Option String) (c : Option PartialConfig)
    (df : DataFrame) (pe : Effect)
    (hdf : parse dj = .ok df)
    (hpe : plotStep ct df x y (mergeConfig c) = .ok pe) :
    (generate_chart parse (.error msg) ct dj fn x y c).2
      = .ok ("An error occurred: " ++ msg) := by
  rw [generate_chart_eq_of_parse_ok parse (.error msg) ct dj fn x y c df pe hdf hpe]

/-- Witness for C3: a concrete run whose upload raises `boom`. -/
theorem generate_chart_upload_error_string_witness :
    (generate_chart (constParse df0) (.error "boom") "scatter" "d" "f.png" "x"
        (some "y") none).2
      = .ok "An error occurred: boom" :=
  generate_chart_upload_error_string (constParse df0) "boom" "scatter" "d" "f.png"
    "x" (some "y") none df0 _ rfl rfl

/-- C4: a chart type outside the nine supported tags makes the call raise
`ValueError("Unsupported chart type: <tag>")`; no string (URL or error
message) is returned. -/
theorem generate_chart_unsupported
    (parse : String → Except PyError DataFrame) (up : Except String Unit)
    (ct dj fn x : String) (y : Option String) (c : Option PartialConfig) (df : DataFrame)
    (hct : ct ∉ ["scatter", "line", "bar", "box", "violin", "heatmap", "pie",
      "histogram", "kde"])
    (hdf : parse dj = .ok df) :
    (generate_chart parse up ct dj fn x y c).2
      = .error (.valueError ("Unsupported chart type: " ++ ct)) := by
  simp only [List.mem_cons, List.not_mem_nil, or_false, not_or] at hct
  obtain ⟨h1, h2, h3, h4, h5, h6, h7, h8, h9⟩ := hct
  simp only [generate_chart, hdf]
  unfold plotStep
  rw [if_neg h1, if_neg h2, if_neg h3, if_neg h4, if_neg h5, if_neg h6, if_neg h7,
    if_neg h8, if_neg h9]

/-- Witness for C4 at the unsupported tag `donut`. -/
theorem generate_chart_unsupported_witness :
    (generate_chart (constParse df0) (.ok ()) "donut" "d" "f.png" "x" (some "y")
        none).2
      = .error (.valueError "Unsupported chart type: donut") :=
  generate_chart_unsupported (constParse df0) (.ok ()) "donut" "d" "f.png" "x"
    (some "y") none df0 (by decide) rfl

end Chart

namespace Chart

/-- C5: with `config` absent, every documented default applies (title None,
figsize (10,6), palette deep, hue None, style None, orientation v, bins 30,
aggregate mean, error_bars False, legend True, grid True, rotate_labels 0,
font_size 10, theme darkgrid); and each key the caller supplies overrides
its default while every unsupplied key keeps its default. -/
theorem mergeConfig_defaults :
    mergeConfig none =
      { title := none, figsize := (10, 6), palette := "deep", hue := none,
        style := none, orientation := "v", bins := 30, aggregate := "mean",
        error_bars := false, legend := true, grid := true, rotate_labels := 0,
        font_size := 10, theme := "darkgrid" }
    ∧ ∀ pc : PartialConfig,
        (mergeConfig (some pc)).title = pc.title.getD none
        ∧ (mergeConfig (some pc)).figsize = pc.figsize.getD (10, 6)
        ∧ (mergeConfig (some pc)).palette = pc.palette.getD "deep"
        ∧ (mergeConfig (some pc)).hue = pc.hue.getD none
        ∧ (mergeConfig (some pc)).style = pc.style.getD none
        ∧ (mergeConfig (some pc)).orientation = pc.orientation.getD "v"
        ∧ (mergeConfig (some pc)).bins = pc.bins.getD 30
        ∧ (mergeConfig (some pc)).aggregate = pc.aggregate.getD "mean"
        ∧ (mergeConfig (some pc)).error_bars = pc.error_bars.getD false
        ∧ (mergeConfig (some pc)).legend = pc.legend.getD true
        ∧ (mergeConfig (some pc)).grid = pc.grid.getD true
        ∧ (mergeConfig (some pc)).rotate_labels = pc.rotate_labels.getD 0
        ∧ (mergeConfig (some pc)).font_size = pc.font_size.getD 10
        ∧ (mergeConfig (some pc)).theme = pc.theme.getD "darkgrid" :=
  ⟨rfl, fun _ => ⟨rfl, rfl, rfl, rfl, rfl, rfl, rfl, rfl, rfl, rfl, rfl, rfl, rfl, rfl⟩⟩

/-- C6 counterexample: a caller-supplied empty-string title is given
(`config['title'] = ''`) yet the drawn title is the generated default, not
the supplied one. -/
theorem generate_chart_empty_title_replaced :
    Effect.set_title "" ∉
      (generate_chart (constParse df0) (.ok ()) "scatter" "d" "f.png" "x" (some "y")
        (some { title := some (some "") })).1
    ∧ Effect.set_title "Scatter Chart: y vs x" ∈
      (generate_chart (constParse df0) (.ok ()) "scatter" "d" "f.png" "x" (some "y")
        (some { title := some (some "") })).1 := by
  decide

/-- C6 (amended): after any successful plot step the shared cosmetics are
applied: the title (the caller-supplied title when supplied and non-empty,
otherwise the generated default), the x label set to `x_axis`, the y label
set to `y_axis` when it is given and non-empty, x-tick rotation when
`rotate_labels` is nonzero, the grid per the `grid` flag, and legend
removal when `legend` is false. -/
theorem generate_chart_cosmetics
    (parse : String → Except PyError DataFrame) (up : Except String Unit)
    (ct dj fn x : String) (y : Option String) (c : Option PartialConfig)
    (df : DataFrame) (pe : Effect)
    (hdf : parse dj = .ok df)
    (hpe : plotStep ct df x y (mergeConfig c) = .ok pe) :
    Effect.set_title (if pyTruthyStr (mergeConfig c).title
        then ((mergeConfig c).title).getD ""
        else defaultTitle ct x y) ∈ (generate_chart parse up ct dj fn x y c).1
    ∧ Effect.set_xlabel x ∈ (generate_chart parse up ct dj fn x y c).1
    ∧ (pyTruthyStr y = true →
        Effect.set_ylabel (y.getD "") ∈ (generate_chart parse up ct dj fn x y c).1)
    ∧ ((mergeConfig c).rotate_labels ≠ 0 →
        Effect.xticks_rotation (mergeConfig c).rotate_labels
          ∈ (generate_chart parse up ct dj fn x y c).1)
    ∧ Effect.set_grid (mergeConfig c).grid ∈ (generate_chart parse up ct dj fn x y c).1
    ∧ ((mergeConfig c).legend = false →
        Effect.remove_legend ∈ (generate_chart parse up ct dj fn x y c).1) := by
  rw [generate_chart_eq_of_parse_ok parse up ct dj fn x y c df pe hdf hpe]
  refine ⟨?_, ?_, fun hy => ?_, fun hr => ?_, ?_, fun hl => ?_⟩
  · simp [cosmeticEffects]
  · simp [cosmeticEffects]
  · simp [cosmeticEffects, hy]
  · simp [cosmeticEffects, hr]
  · simp [cosmeticEffects]
  · simp [cosmeticEffects, hl]

/-- Witness for the amended C6 at a run with a non-empty title, a 45 degree
rotation and a disabled legend. -/
theorem generate_chart_cosmetics_witness :
    Effect.set_title "T" ∈
      (generate_chart (constParse df0) (.ok ()) "scatter" "d" "f.png" "x" (some "y")
        (some { title := some (some "T"), legend := some false,
                rotate_labels := some 45 })).1
    ∧ Effect.set_xlabel "x" ∈
      (generate_chart (constParse df0) (.ok ()) "scatter" "d" "f.png" "x" (some "y")
        (some { title := some (some "T"), legend := some false,
                rotate_labels := some 45 })).1
    ∧ Effect.set_ylabel "y" ∈
      (generate_chart (constParse df0) (.ok ()) "scatter" "d" "f.png" "x" (some "y")
        (some { title := some (some "T"), legend := some false,
                rotate_labels := some 45 })).1
    ∧ Effect.xticks_rotation 45 ∈
      (generate_chart (constParse df0) (.ok ()) "scatter" "d" "f.png" "x" (some "y")
        (some { title := some (some "T"), legend := some false,
                rotate_labels := some 45 })).1
    ∧ Effect.set_grid true ∈
      (generate_chart (constParse df0) (.ok ()) "scatter" "d" "f.png" "x" (some "y")
        (some { title := some (some "T"), legend := some false,
                rotate_labels := some 45 })).1
    ∧ Effect.remove_legend ∈
      (generate_chart (constParse df0) (.ok ()) "scatter" "d" "f.png" "x" (some "y")
        (some { title := some (some "T"), legend := some false,
                rotate_labels := some 45 })).1 :=
  have h := generate_chart_cosmetics (constParse df0) (.ok ()) "scatter" "d" "f.png"
    "x" (some "y")
    (some { title := some (some "T"), legend := some false, rotate_labels := some 45 })
    df0 _ rfl rfl
  ⟨h.1, h.2.1, h.2.2.1 rfl, h.2.2.2.1 (by decide), h.2.2.2.2.1, h.2.2.2.2.2 rfl⟩

end Chart

namespace Chart

/-- Whether an effect writes the process-wide theme settings (the seaborn
theme or the matplotlib base font size). -/
def Effect.isThemeSetting : Effect → Bool
  | .set_theme _ => true
  | .set_font_size _ => true
  | _ => false

/-- A successful dispatch yields one of the nine plotting calls. -/
theorem plotStep_ok_isPlotCall (ct : String) (df : DataFrame) (x : String)
    (y : Option String) (cfg : Config) (pe : Effect)
    (h : plotStep ct df x y cfg = .ok pe) : pe.isPlotCall = true := by
  unfold plotStep at h
  by_cases h1 : ct = "scatter"
  · rw [if_pos h1] at h; cases h; rfl
  rw [if_neg h1] at h
  by_cases h2 : ct = "line"
  · rw [if_pos h2] at h; cases h; rfl
  rw [if_neg h2] at h
  by_cases h3 : ct = "bar"
  · rw [if_pos h3] at h; cases h; rfl
  rw [if_neg h3] at h
  by_cases h4 : ct = "box"
  · rw [if_pos h4] at h; cases h; rfl
  rw [if_neg h4] at h
  by_cases h5 : ct = "violin"
  · rw [if_pos h5] at h; cases h; rfl
  rw [if_neg h5] at h
  by_cases h6 : ct = "heatmap"
  · rw [if_pos h6] at h; cases h; rfl
  rw [if_neg h6] at h
  by_cases h7 : ct = "pie"
  · rw [if_pos h7] at h
    cases hsz : df.col? y with
    | none => rw [hsz] at h; exact Except.noConfusion h
    | some sizes =>
      rw [hsz] at h
      cases hlb : df.col? (some x) with
      | none => rw [hlb] at h; exact Except.noConfusion h
      | some labels => rw [hlb] at h; cases h; rfl
  rw [if_neg h7] at h
  by_cases h8 : ct = "histogram"
  · rw [if_pos h8] at h; cases h; rfl
  rw [if_neg h8] at h
  by_cases h9 : ct = "kde"
  · rw [if_pos h9] at h; cases h; rfl
  rw [if_neg h9] at h
  exact Except.noConfusion h

/-- A plotting call is not a theme-settings write. -/
theorem isPlotCall_not_isThemeSetting (pe : Effect) (h : pe.isPlotCall = true) :
    pe.isThemeSetting = false := by
  cases pe <;> simp_all [Effect.isPlotCall, Effect.isThemeSetting]

/-- The customization block writes no theme settings. -/
theorem cosmeticEffects_filter_isThemeSetting (ct x : String) (y : Option String)
    (cfg : Config) :
    (cosmeticEffects ct x y cfg).filter Effect.isThemeSetting = [] := by
  unfold cosmeticEffects
  split_ifs <;> rfl

/-- C7 counterexample: an invocation whose payload is invalid JSON raises
during parsing and performs no plotting-library call at all, so it does not
set the global theme settings. -/
theorem generate_chart_no_theme_on_parse_error :
    (generate_chart (failParse "Expecting value") (.ok ()) "scatter" "notjson"
        "f.png" "x" (some "y") none).1 = []
    ∧ Effect.set_theme "darkgrid" ∉
        (generate_chart (failParse "Expecting value") (.ok ()) "scatter" "notjson"
          "f.png" "x" (some "y") none).1 := by
  exact ⟨rfl, by decide⟩

/-- C7 (amended): every invocation that parses its payload successfully
first sets the global theme to the merged `theme` and the global base font
size to the merged `font_size` — its first two library interactions — and
writes no other theme settings, so these globals are overwritten on each
such call rather than carried over. -/
theorem generate_chart_sets_theme
    (parse : String → Except PyError DataFrame) (up : Except String Unit)
    (ct dj fn x : String) (y : Option String) (c : Option PartialConfig)
    (df : DataFrame)
    (hdf : parse dj = .ok df) :
    (generate_chart parse up ct dj fn x y c).1.take 2
      = [.set_theme (mergeConfig c).theme, .set_font_size (mergeConfig c).font_size]
    ∧ (generate_chart parse up ct dj fn x y c).1.filter Effect.isThemeSetting
      = [.set_theme (mergeConfig c).theme, .set_font_size (mergeConfig c).font_size] := by
  unfold generate_chart
  simp only [hdf]
  cases hps : plotStep ct df x y (mergeConfig c) with
  | error e => exact ⟨rfl, rfl⟩
  | ok pe =>
    have hts : pe.isThemeSetting = false :=
      isPlotCall_not_isThemeSetting pe (plotStep_ok_isPlotCall ct df x y (mergeConfig c) pe hps)
    have h1 : Effect.isThemeSetting (.set_theme (mergeConfig c).theme) = true := rfl
    have h2 : Effect.isThemeSetting (.set_font_size (mergeConfig c).font_size) = true := rfl
    have h3 : Effect.isThemeSetting (.subplots (mergeConfig c).figsize) = false := rfl
    have h4 : Effect.isThemeSetting (.upload_fileobj bucket_name fn) = false := rfl
    cases up with
    | ok u =>
      refine ⟨rfl, ?_⟩
      simp [List.filter_append, List.filter_cons, h1, h2, h3, h4, hts,
        cosmeticEffects_filter_isThemeSetting]
    | error msg =>
      refine ⟨rfl, ?_⟩
      simp [List.filter_append, List.filter_cons, h1, h2, h3, h4, hts,
        cosmeticEffects_filter_isThemeSetting]

/-- Witness for the amended C7 with a caller-supplied theme and font size. -/
theorem generate_chart_sets_theme_witness :
    (generate_chart (constParse df0) (.ok ()) "scatter" "d" "f.png" "x" (some "y")
        (some { theme := some "white", font_size := some 12 })).1.take 2
      = [.set_theme "white", .set_font_size 12]
    ∧ (generate_chart (constParse df0) (.ok ()) "scatter" "d" "f.png" "x" (some "y")
        (some { theme := some "white", font_size := some 12 })).1.filter
          Effect.isThemeSetting
      = [.set_theme "white", .set_font_size 12] :=
  generate_chart_sets_theme (constParse df0) (.ok ()) "scatter" "d" "f.png" "x"
    (some "y") (some { theme := some "white", font_size := some 12 }) df0 rfl

end Chart

namespace Chart

/-- C8: the error-to-string conversion covers only the upload step: a
payload whose parsing raises propagates that exception to the caller (with
no library call performed), and a plotting-stage error — here the pie
branch's failed column lookup — also propagates, instead of being returned
as a string. -/
theorem generate_chart_propagates_non_upload_errors
    (parse : String → Except PyError DataFrame) (up : Except String Unit)
    (ct dj fn x : String) (y : Option String) (c : Option PartialConfig)
    (e : PyError) (df : DataFrame) :
    (parse dj = .error e → generate_chart parse up ct dj fn x y c = ([], .error e))
    ∧ (parse dj = .ok df → df.col? y = none →
        (generate_chart parse up "pie" dj fn x y c).2 = .error (.keyError y)) := by
  constructor
  · intro h
    unfold generate_chart
    simp only [h]
  · intro hdf hcol
    simp only [generate_chart, hdf]
    unfold plotStep
    rw [if_neg (by decide), if_neg (by decide), if_neg (by decide), if_neg (by decide),
      if_neg (by decide), if_neg (by decide), if_pos rfl, hcol]

/-- Witness for C8: a run with invalid JSON, and a pie run with a `None`
`y_axis`. -/
theorem generate_chart_propagates_non_upload_errors_witness :
    generate_chart (failParse "Expecting value") (.ok ()) "scatter" "notjson" "f.png"
        "x" (some "y") none
      = ([], .error (.jsonDecodeError "Expecting value"))
    ∧ (generate_chart (constParse df0) (.ok ()) "pie" "d" "f.png" "x" none none).2
      = .error (.keyError none) :=
  ⟨(generate_chart_propagates_non_upload_errors (failParse "Expecting value") (.ok ())
      "scatter" "notjson" "f.png" "x" (some "y") none
      (.jsonDecodeError "Expecting value") df0).1 rfl,
   (generate_chart_propagates_non_upload_errors (constParse df0) (.ok ())
      "pie" "d" "f.png" "x" none none (.keyError none) df0).2 rfl rfl⟩

/-- C9: the pie branch needs `y_axis` to name a column: with `y_axis = None`
the column lookup raises `KeyError(None)` and no string is returned, and
when both lookups succeed the pie call takes its wedge sizes from the
`y_axis` column and its labels from the `x_axis` column. -/
theorem generate_chart_pie
    (parse : String → Except PyError DataFrame) (up : Except String Unit)
    (dj fn x : String) (y : Option String) (c : Option PartialConfig)
    (df : DataFrame) (sizes labels : List Value)
    (hdf : parse dj = .ok df) :
    (generate_chart parse up "pie" dj fn x none c).2 = .error (.keyError none)
    ∧ (df.col? y = some sizes → df.col? (some x) = some labels →
        Effect.pie sizes labels (mergeConfig c).palette
          ∈ (generate_chart parse up "pie" dj fn x y c).1) := by
  constructor
  · simp only [generate_chart, hdf]
    rfl
  · intro hsz hlb
    have hps : plotStep "pie" df x y (mergeConfig c)
        = .ok (.pie sizes labels (mergeConfig c).palette) := by
      unfold plotStep
      rw [if_neg (by decide), if_neg (by decide), if_neg (by decide), if_neg (by decide),
        if_neg (by decide), if_neg (by decide), if_pos rfl, hsz, hlb]
    rw [generate_chart_eq_of_parse_ok parse up "pie" dj fn x y c df _ hdf hps]
    simp

/-- Witness for C9 at a frame whose `y` column is `[2]` and `x` column is
`[1]`. -/
theorem generate_chart_pie_witness :
    (generate_chart (constParse df0) (.ok ()) "pie" "d" "f.png" "x" none none).2
      = .error (.keyError none)
    ∧ Effect.pie [Value.int 2] [Value.int 1] "deep"
        ∈ (generate_chart (constParse df0) (.ok ()) "pie" "d" "f.png" "x" (some "y")
            none).1 :=
  ⟨(generate_chart_pie (constParse df0) (.ok ()) "d" "f.png" "x" (some "y") none df0
      [Value.int 2] [Value.int 1] rfl).1,
   (generate_chart_pie (constParse df0) (.ok ()) "d" "f.png" "x" (some "y") none df0
      [Value.int 2] [Value.int 1] rfl).2 rfl rfl⟩

/-- C10: whenever the merged title is falsy (`None` or the empty string),
the drawn title is the generated default
`<Chart_type capitalized> Chart: <y_axis> vs <x_axis>`, whose y part is
empty when `y_axis` is `None`; in particular a caller-supplied empty-string
title is silently replaced by this default. -/
theorem generate_chart_falsy_title_default
    (parse : String → Except PyError DataFrame) (up : Except String Unit)
    (ct dj fn x : String) (y : Option String) (c : Option PartialConfig)
    (df : DataFrame) (pe : Effect)
    (hdf : parse dj = .ok df)
    (hpe : plotStep ct df x y (mergeConfig c) = .ok pe)
    (htitle : pyTruthyStr (mergeConfig c).title = false) :
    Effect.set_title (pyCapitalize ct ++ " Chart: " ++ y.getD "" ++ " vs " ++ x)
      ∈ (generate_chart parse up ct dj fn x y c).1 := by
  rw [generate_chart_eq_of_parse_ok parse up ct dj fn x y c df pe hdf hpe]
  simp [cosmeticEffects, htitle, defaultTitle]

/-- Witness for C10: a scatter run whose caller-supplied title is the empty
string draws the generated default title. -/
theorem generate_chart_falsy_title_default_witness :
    Effect.set_title "Scatter Chart: y vs x"
      ∈ (generate_chart (constParse df0) (.ok ()) "scatter" "d" "f.png" "x" (some "y")
          (some { title := some (some "") })).1 :=
  generate_chart_falsy_title_default (constParse df0) (.ok ()) "scatter" "d" "f.png"
    "x" (some "y") (some { title := some (some "") }) df0 _ rfl rfl rfl

end Chart
